import Mathlib

/-!
Shallow embedding of the kirby-clicker demo (src/main.cpp).

Modelling conventions:
- raylib float scalars (positions, scales, timers, frequencies) are modelled
  as real numbers; raylib's float constant PI is modelled as the real number π.
- Color channels are unsigned char (0..255) in the source and are modelled as ℕ.
- The alpha decay at main.cpp:139 stores the float
  Lerp(a, 0.f, 0.025f) = a + 0.025f*(0 - a) into an unsigned char, which
  truncates toward zero.  We model this computation over ℚ with the exact
  constant 0.025.  For every byte value a in 0..255 the single-precision
  computation truncates to the same byte as the exact rational one: the two
  could only differ when 0.975*a is an integer, i.e. a ∈ {40,80,120,160,200,240},
  and in each of those cases the rounded float product 0.025f*a collapses to
  exactly a/40 (the perturbation 13421773/2^29 - 1/40 scaled by a stays below
  half an ulp), so the float subtraction is exact.  The threshold comparison
  tint.a < 0.005f at main.cpp:136 likewise agrees with the rational comparison
  (a:ℚ) < 0.005 on all byte values.
- The entt registry is modelled as a list of entities, each entity being a
  bundle of optional components; view iteration is iteration over the list
  restricted to the entities having the viewed components; entt destroy is
  removal from the list; entt create + emplace is appending a fresh bundle.
-/

/-- 2D float vector (raylib Vector2), modelled over ℝ. -/
structure Vector2 where
  x : ℝ
  y : ℝ

/-- 3D float vector (raylib Vector3, renamed: Mathlib already owns that name), modelled over ℝ. -/
structure Vec3 where
  x : ℝ
  y : ℝ
  z : ℝ

/-- Quaternion (raylib Quaternion = Vector4), modelled over ℝ. -/
structure Vector4 where
  x : ℝ
  y : ℝ
  z : ℝ
  w : ℝ

/-- raymath QuaternionIdentity(): x=0, y=0, z=0, w=1. -/
def QuaternionIdentity : Vector4 := ⟨0, 0, 0, 1⟩

/-- raylib Color: four unsigned char channels, modelled as ℕ (values 0..255). -/
structure Color where
  r : ℕ
  g : ℕ
  b : ℕ
  a : ℕ

/-- raylib WHITE = { 255, 255, 255, 255 }. -/
def WHITE : Color := ⟨255, 255, 255, 255⟩

/-- The nine named anchor points plus Custom (SpriteComponent::Anchor::AnchorType). -/
inductive AnchorType where
  | TopLeft | TopCenter | TopRight
  | CenterLeft | Center | CenterRight
  | BottomLeft | BottomCenter | BottomRight
  | Custom

/-- SpriteComponent::Anchor: an anchor kind plus the custom offset used
when the kind is Custom (main.cpp:40-78). -/
structure Anchor where
  anchor_type : AnchorType
  custom_anchor : Vector2

/-- SpriteComponent::Anchor::ToVec (main.cpp:52-77): resolve the anchor to a
pixel offset given the texture dimensions. -/
noncomputable def Anchor.ToVec (anch : Anchor) (dimensions : Vector2) : Vector2 :=
  match anch.anchor_type with
  | AnchorType.TopLeft => ⟨0, 0⟩
  | AnchorType.TopCenter => ⟨dimensions.x / 2, 0⟩
  | AnchorType.TopRight => ⟨dimensions.x, 0⟩
  | AnchorType.CenterLeft => ⟨0, dimensions.y / 2⟩
  | AnchorType.Center => ⟨dimensions.x / 2, dimensions.y / 2⟩
  | AnchorType.CenterRight => ⟨dimensions.x, dimensions.y / 2⟩
  | AnchorType.BottomLeft => ⟨0, dimensions.y⟩
  | AnchorType.BottomCenter => ⟨dimensions.x / 2, dimensions.y⟩
  | AnchorType.BottomRight => ⟨dimensions.x, dimensions.y⟩
  | AnchorType.Custom => anch.custom_anchor

/-- SpriteComponent (main.cpp:33-79): shared texture handle (the
shared_ptr is modelled as an opaque handle id), tint color, anchor. -/
structure SpriteComponent where
  tex : ℕ
  tint : Color
  anchor : Anchor

/-- TransformComponent = raylib Transform: translation, rotation quaternion,
scale (main.cpp:81). -/
structure TransformComponent where
  translation : Vec3
  rotation : Vector4
  scale : Vec3

/-- SquishComponent (main.cpp:83-88): target scale pair, elapsed timer,
oscillation frequency. -/
structure SquishComponent where
  scale : Vector2
  timer : ℝ
  frequency : ℝ

/-- An entt entity with its (optional) components. -/
structure Entity where
  transform : Option TransformComponent
  sprite : Option SpriteComponent
  squish : Option SquishComponent

/-- The entt registry, modelled as the list of live entities. -/
abbrev Registry := List Entity

/-- raymath Lerp(start, end, amount) = start + amount*(end - start),
modelled over ℚ. -/
def Lerp (s e t : ℚ) : ℚ := s + t * (e - s)

/-- The alpha update at main.cpp:139: the float Lerp(a, 0.f, 0.025f) stored
back into the unsigned char channel, which truncates toward zero (the value is
nonnegative, so truncation is the floor). -/
def fadeAlpha (a : ℕ) : ℕ := (⌊Lerp (a : ℚ) 0 0.025⌋).toNat

/-- One FadeOut iteration body applied to one entity (main.cpp:134-140):
entities without a Sprite are not in the view and pass through; an entity
whose pre-decay tint alpha is below the 0.005 threshold is destroyed
(`none`); otherwise its alpha is decayed.  (The source also executes the
alpha write after the destroy call, through the destroyed entity's dangling
component reference; see FadeOutBodyEffects for that statement-level fact.) -/
def FadeOutEntity (e : Entity) : Option Entity :=
  match e.sprite with
  | none => some e
  | some s =>
      if (s.tint.a : ℚ) < 0.005 then none
      else
        let tint2 : Color := { s.tint with a := fadeAlpha s.tint.a }
        some { e with sprite := some { s with tint := tint2 } }

/-- FadeOut (main.cpp:130-141) over the whole registry. -/
def FadeOut (reg : Registry) : Registry := reg.filterMap FadeOutEntity

/-- The observable effects of one FadeOut loop body (main.cpp:134-140) on an
entity whose pre-decay alpha byte is `a`, in program order.  The destroy call
is guarded by the threshold test, but the alpha write that follows it is NOT
in an else branch: it executes unconditionally, after the destroy. -/
inductive FadeEffect where
  | destroyEntity
  | writeAlpha (a : ℕ)

/-- Statement-level effect trace of the FadeOut loop body (main.cpp:136-139). -/
def FadeOutBodyEffects (a : ℕ) : List FadeEffect :=
  (if (a : ℚ) < 0.005 then [FadeEffect.destroyEntity] else [])
    ++ [FadeEffect.writeAlpha (fadeAlpha a)]

/-- SquishSprites loop body (main.cpp:117-126) applied to one entity.  The
view requires Transform, Sprite and Squish; unmatched entities pass through
unchanged.  Program order: the timer is advanced by the frame delta first,
then scale.y is written from sin using squish.scale.x, then scale.x is
written from cos using squish.scale.y (both reads of the timer see the
post-advance value), and finally the timer is reset to 0 when it exceeds
2π (raylib PI * 2, modelled as the real 2π). -/
noncomputable def SquishEntity (dt : ℝ) (e : Entity) : Entity :=
  match e.transform, e.sprite, e.squish with
  | some transform, some _, some squish =>
      let timer1 := squish.timer + dt
      let scale1 : Vec3 := { transform.scale with
        y := (Real.sin (timer1 * squish.frequency) / 4.5 + 0.5) * squish.scale.x }
      let scale2 : Vec3 := { scale1 with
        x := (Real.cos (timer1 * squish.frequency + Real.sin (timer1 / 2)) / 4.5 + 0.5)
               * squish.scale.y }
      let timer2 := if timer1 > Real.pi * 2 then 0 else timer1
      { e with transform := some { transform with scale := scale2 },
               squish := some { squish with timer := timer2 } }
  | _, _, _ => e

/-- SquishSprites (main.cpp:111-128): one frame of the squish system with
frame delta dt (GetFrameTime() is constant within a frame). -/
noncomputable def SquishSprites (dt : ℝ) (reg : Registry) : Registry :=
  reg.map (SquishEntity dt)

/-- SpawnKirb (main.cpp:143-159): create one entity and emplace Transform
(translation = (pos.x, pos.y, 0), rotation = QuaternionIdentity, scale =
(1,1,1)), Sprite (shared texture, tint = WHITE, anchor defaulting to Center
with zero custom offset), and Squish (given scale envelope, timer = 0, given
frequency). -/
def SpawnKirb (reg : Registry) (kirb_tex : ℕ) (pos : Vector2)
    (squish_scale : Vector2) (squish_frequency : ℝ) : Registry :=
  reg ++ [{ transform := some { translation := ⟨pos.x, pos.y, 0⟩,
                                rotation := QuaternionIdentity,
                                scale := ⟨1, 1, 1⟩ },
            sprite := some { tex := kirb_tex, tint := WHITE,
                             anchor := { anchor_type := AnchorType.Center,
                                         custom_anchor := ⟨0, 0⟩ } },
            squish := some { scale := squish_scale, timer := 0,
                             frequency := squish_frequency } }]

/-- RenderSprites (main.cpp:92-109) iterates a const view and only issues
draw calls; it does not modify the registry. -/
def RenderSprites (reg : Registry) : Registry := reg

/-- Registries reachable from the empty entt registry by any sequence of
spawn, squish, fade-out and render steps (the main loop, main.cpp:183-202). -/
inductive Reachable : Registry → Prop where
  | empty : Reachable []
  | spawn {reg : Registry} (tex : ℕ) (pos ss : Vector2) (f : ℝ) :
      Reachable reg → Reachable (SpawnKirb reg tex pos ss f)
  | squish {reg : Registry} (dt : ℝ) :
      Reachable reg → Reachable (SquishSprites dt reg)
  | fade {reg : Registry} :
      Reachable reg → Reachable (FadeOut reg)
  | render {reg : Registry} :
      Reachable reg → Reachable (RenderSprites reg)

/-- A concrete sprite with tint alpha byte 1, one frame from the fade floor. -/
def sA : SpriteComponent :=
  { tex := 0, tint := ⟨255, 255, 255, 1⟩,
    anchor := { anchor_type := AnchorType.Center, custom_anchor := ⟨0, 0⟩ } }

/-- A concrete sprite-only entity carrying sA. -/
def eA : Entity := { transform := none, sprite := some sA, squish := none }

/-- sA after one alpha decay step: tint alpha byte 0. -/
def sA0 : SpriteComponent := { sA with tint := ⟨255, 255, 255, 0⟩ }

/-- eA after one fade-out pass: still present, alpha at the floor. -/
def eA0 : Entity := { eA with sprite := some sA0 }

/-- The entity produced by spawning at (640,360) with envelope (0.15,0.15)
and frequency 10 on texture handle 0. -/
def kirbE : Entity :=
  { transform := some { translation := ⟨640, 360, 0⟩, rotation := ⟨0, 0, 0, 1⟩,
                        scale := ⟨1, 1, 1⟩ },
    sprite := some { tex := 0, tint := ⟨255, 255, 255, 255⟩,
                     anchor := { anchor_type := AnchorType.Center,
                                 custom_anchor := ⟨0, 0⟩ } },
    squish := some { scale := ⟨0.15, 0.15⟩, timer := 0, frequency := 10 } }

-- Closed form of the alpha decay on byte values.

/-- The rational Lerp decay, floored to the stored byte, is ⌊39a/40⌋. -/
theorem fadeAlpha_eq (a : ℕ) : fadeAlpha a = 39 * a / 40 := by
  have h1 : Lerp (a : ℚ) 0 0.025 = ((39 * a : ℕ) : ℚ) / ((40 : ℕ) : ℚ) := by
    unfold Lerp
    push_cast
    ring_nf
  rw [fadeAlpha, h1, Int.floor_toNat, Nat.floor_div_nat, Nat.floor_natCast]

/-- The byte threshold test is equivalent to the byte being zero. -/
theorem belowThreshold_iff (a : ℕ) : ((a : ℚ) < 0.005) ↔ a = 0 := by
  constructor
  · intro h
    by_contra hne
    have h1 : (1 : ℕ) ≤ a := Nat.one_le_iff_ne_zero.mpr hne
    have h2 : (1 : ℚ) ≤ (a : ℚ) := by exact_mod_cast h1
    norm_num at h
    linarith
  · intro h
    subst h
    norm_num

theorem fadeAlpha_le (a : ℕ) : fadeAlpha a ≤ a := by
  rw [fadeAlpha_eq]
  omega

theorem fadeAlpha_lt (a : ℕ) (h : 1 ≤ a) : fadeAlpha a < a := by
  rw [fadeAlpha_eq]
  omega

/-- Component presence is preserved by the squish loop body, and the Sprite
component is untouched. -/
theorem SquishEntity_components (dt : ℝ) (e : Entity) :
    (SquishEntity dt e).transform.isSome = e.transform.isSome ∧
    (SquishEntity dt e).sprite = e.sprite ∧
    (SquishEntity dt e).squish.isSome = e.squish.isSome := by
  rcases e with ⟨t, s, q⟩
  cases t <;> cases s <;> cases q <;> simp [SquishEntity]

/-- A surviving entity of the FadeOut loop body keeps its Transform and
Squish components unchanged and keeps a Sprite component. -/
theorem FadeOutEntity_some (e e' : Entity) (h : FadeOutEntity e = some e') :
    e'.transform = e.transform ∧ e'.squish = e.squish ∧
    e'.sprite.isSome = e.sprite.isSome := by
  rcases e with ⟨t, s, q⟩
  cases s with
  | none =>
      simp only [FadeOutEntity, Option.some.injEq] at h
      subst h
      simp
  | some s0 =>
      by_cases hc : ((s0.tint.a : ℚ) < 0.005)
      · simp [FadeOutEntity, hc] at h
      · simp only [FadeOutEntity, hc, if_neg, if_false, Option.some.injEq] at h
        subst h
        simp

/-- Claim C1: for every entity with Transform, Sprite and Squish components,
one squish step advances the timer by the frame delta and then writes
scale.y = (sin(timer·freq)/4.5 + 0.5)·squish.scale.x and
scale.x = (cos(timer·freq + sin(timer/2))/4.5 + 0.5)·squish.scale.y, using
the post-advance timer, the entity's own frequency, and the cross-use of
squish.scale.x/squish.scale.y between the two output axes exactly as
written; translation, rotation and scale.z are carried over. -/
theorem squish_scale_formula (dt : ℝ) (tr : TransformComponent)
    (sp : SpriteComponent) (sq : SquishComponent) :
    (SquishEntity dt ⟨some tr, some sp, some sq⟩).transform =
      some { tr with scale :=
        { x := (Real.cos ((sq.timer + dt) * sq.frequency
                  + Real.sin ((sq.timer + dt) / 2)) / 4.5 + 0.5) * sq.scale.y,
          y := (Real.sin ((sq.timer + dt) * sq.frequency) / 4.5 + 0.5) * sq.scale.x,
          z := tr.scale.z } } := by
  rfl

/-- Claim C4: each squish step adds exactly the frame delta to the timer, and
resets it to exactly 0 in the same step when the advanced timer exceeds 2π;
so the post-step timer is either the previous timer plus the delta (when that
sum is at most 2π) or exactly 0. -/
theorem squish_timer_step (dt : ℝ) (tr : TransformComponent)
    (sp : SpriteComponent) (sq : SquishComponent) :
    ((SquishEntity dt ⟨some tr, some sp, some sq⟩).squish =
        some { sq with timer := sq.timer + dt } ∧ sq.timer + dt ≤ Real.pi * 2) ∨
    ((SquishEntity dt ⟨some tr, some sp, some sq⟩).squish =
        some { sq with timer := 0 } ∧ Real.pi * 2 < sq.timer + dt) := by
  by_cases h : sq.timer + dt > Real.pi * 2
  · right
    exact ⟨by simp [SquishEntity, if_pos h], h⟩
  · left
    exact ⟨by simp [SquishEntity, if_neg h], not_lt.mp h⟩

/-- Claim C9: a squish step modifies only scale.x, scale.y and the squish
timer; the Sprite component, the Transform translation, rotation and scale.z,
and the squish scale envelope and frequency are unchanged, for every entity
(matched or not). -/
theorem squish_touches_only_scale_xy_timer (dt : ℝ) (e : Entity) :
    (SquishEntity dt e).sprite = e.sprite ∧
    (SquishEntity dt e).transform.map TransformComponent.translation
      = e.transform.map TransformComponent.translation ∧
    (SquishEntity dt e).transform.map TransformComponent.rotation
      = e.transform.map TransformComponent.rotation ∧
    (SquishEntity dt e).transform.map (fun t => t.scale.z)
      = e.transform.map (fun t => t.scale.z) ∧
    (SquishEntity dt e).squish.map SquishComponent.scale
      = e.squish.map SquishComponent.scale ∧
    (SquishEntity dt e).squish.map SquishComponent.frequency
      = e.squish.map SquishComponent.frequency := by
  rcases e with ⟨t, s, q⟩
  cases t <;> cases s <;> cases q <;> simp [SquishEntity]

/-- Claim C8: anchor resolution on a 64×64 texture yields (32,32) for Center,
(0,0) for TopLeft, (64,64) for BottomRight; a Custom anchor returns the
stored custom offset for any dimensions. -/
theorem anchor_tovec_values :
    Anchor.ToVec ⟨AnchorType.Center, ⟨0, 0⟩⟩ ⟨64, 64⟩ = ⟨32, 32⟩ ∧
    Anchor.ToVec ⟨AnchorType.TopLeft, ⟨0, 0⟩⟩ ⟨64, 64⟩ = ⟨0, 0⟩ ∧
    Anchor.ToVec ⟨AnchorType.BottomRight, ⟨0, 0⟩⟩ ⟨64, 64⟩ = ⟨64, 64⟩ ∧
    ∀ (c dims : Vector2), Anchor.ToVec ⟨AnchorType.Custom, c⟩ dims = c := by
  refine ⟨?_, ?_, ?_, fun c dims => rfl⟩ <;> norm_num [Anchor.ToVec]

/-- Claim C6: spawning appends exactly one entity, leaves the existing
entities untouched, and the new entity's components are exactly
Transform(translation = (pos.x, pos.y, 0), rotation = identity quaternion,
scale = (1,1,1)), Sprite(shared texture handle, opaque white tint, Center
anchor) and Squish(given envelope, timer 0, given frequency). -/
theorem spawn_creates_one_entity (reg : Registry) (tex : ℕ)
    (pos ss : Vector2) (f : ℝ) :
    (SpawnKirb reg tex pos ss f).length = reg.length + 1 ∧
    (SpawnKirb reg tex pos ss f).take reg.length = reg ∧
    (SpawnKirb reg tex pos ss f).drop reg.length =
      [{ transform := some { translation := ⟨pos.x, pos.y, 0⟩,
                             rotation := ⟨0, 0, 0, 1⟩,
                             scale := ⟨1, 1, 1⟩ },
         sprite := some { tex := tex, tint := ⟨255, 255, 255, 255⟩,
                          anchor := { anchor_type := AnchorType.Center,
                                      custom_anchor := ⟨0, 0⟩ } },
         squish := some { scale := ss, timer := 0, frequency := f } }] := by
  refine ⟨?_, ?_, ?_⟩ <;>
    simp [SpawnKirb, QuaternionIdentity, WHITE, List.take_left, List.drop_left]

/-- Claim C3 (against the code): on the fade floor (alpha byte 0) the loop
body both destroys the entity and still executes the alpha write afterwards;
the two outcomes are not exclusive, because the interpolation statement is
not in an else branch. -/
theorem fadeout_write_after_destroy :
    FadeOutBodyEffects 0 = [FadeEffect.destroyEntity, FadeEffect.writeAlpha 0] := by
  have h0 : (0 : ℚ) < 0.005 := by norm_num
  have h1 : fadeAlpha 0 = 0 := by rw [fadeAlpha_eq]
  simp only [FadeOutBodyEffects, Nat.cast_zero, h1]
  rw [if_pos h0]
  rfl

/-- Evaluating the fade-out body on the concrete alpha-1 entity: it survives
with alpha decayed to the floor. -/
theorem FadeOutEntity_eA : FadeOutEntity eA = some eA0 := by
  have hc : ¬ ((1 : ℚ) < 0.005) := by norm_num
  have h1 : fadeAlpha 1 = 0 := by rw [fadeAlpha_eq]
  simp [FadeOutEntity, eA, eA0, sA, sA0, hc, h1]

/-- Evaluating the fade-out body on the concrete alpha-0 entity: destroyed. -/
theorem FadeOutEntity_eA0 : FadeOutEntity eA0 = none := by
  have hc : ((0 : ℚ) < 0.005) := by norm_num
  simp [FadeOutEntity, eA0, eA, sA0, sA, hc]

/-- Claim C2: the fade-out destroy check reads the pre-decay alpha, so it
fires exactly when that alpha is below the 0.005 threshold; an entity whose
alpha is still nonzero survives the pass; an entity with alpha at least 2
survives with alpha still at least 1 (so alpha reaches the floor only from
the value 1); and the entity whose decay brings alpha to the floor stays in
the store for that frame and is removed by the next fade-out pass — exactly
one frame after alpha first drops below the threshold. -/
theorem fadeout_destroy_timing :
    ∀ (e : Entity) (s : SpriteComponent), e.sprite = some s →
      ((FadeOutEntity e = none ↔ (s.tint.a : ℚ) < 0.005) ∧
       (s.tint.a ≠ 0 → ∃ e', FadeOutEntity e = some e') ∧
       (2 ≤ s.tint.a → ∃ e' s', FadeOutEntity e = some e' ∧
          e'.sprite = some s' ∧ 1 ≤ s'.tint.a) ∧
       (s.tint.a = 1 → ∃ e' s', FadeOutEntity e = some e' ∧
          e'.sprite = some s' ∧ s'.tint.a = 0 ∧ FadeOutEntity e' = none)) := by
  intro e s hs
  by_cases hc : ((s.tint.a : ℚ) < 0.005)
  · have ha0 : s.tint.a = 0 := (belowThreshold_iff s.tint.a).mp hc
    refine ⟨by simp [FadeOutEntity, hs, hc], ?_, ?_, ?_⟩
    · intro h
      exact absurd ha0 h
    · intro h
      omega
    · intro h
      omega
  · have heval : FadeOutEntity e =
        some ⟨e.transform, some ⟨s.tex, ⟨s.tint.r, s.tint.g, s.tint.b,
          fadeAlpha s.tint.a⟩, s.anchor⟩, e.squish⟩ := by
      simp [FadeOutEntity, hs, hc]
    refine ⟨by simp [FadeOutEntity, hs, hc], ?_, ?_, ?_⟩
    · intro _
      exact ⟨_, heval⟩
    · intro h2
      refine ⟨_, _, heval, rfl, ?_⟩
      show 1 ≤ fadeAlpha s.tint.a
      rw [fadeAlpha_eq]
      omega
    · intro h1
      have hz : fadeAlpha s.tint.a = 0 := by rw [h1, fadeAlpha_eq]
      refine ⟨_, _, heval, rfl, hz, ?_⟩
      norm_num [FadeOutEntity, hz]

/-- Claim C2 witness: the concrete alpha-1 entity survives its fade-out pass
with alpha 0 and is destroyed by the following pass. -/
theorem fadeout_destroy_timing_witness :
    ∃ e' s', FadeOutEntity eA = some e' ∧ e'.sprite = some s' ∧
      s'.tint.a = 0 ∧ FadeOutEntity e' = none :=
  (fadeout_destroy_timing eA sA rfl).2.2.2 rfl

/-- Claim C5: a surviving entity's tint alpha never increases across a
fade-out pass, and hence the stored alpha is non-increasing over any sequence
of decay steps. -/
theorem fade_alpha_nonincreasing :
    (∀ (e e' : Entity) (s s' : SpriteComponent), FadeOutEntity e = some e' →
        e.sprite = some s → e'.sprite = some s' → s'.tint.a ≤ s.tint.a) ∧
    (∀ a n m : ℕ, n ≤ m → fadeAlpha^[m] a ≤ fadeAlpha^[n] a) := by
  constructor
  · intro e e' s s' h hs hs'
    by_cases hc : ((s.tint.a : ℚ) < 0.005)
    · simp [FadeOutEntity, hs, hc] at h
    · simp [FadeOutEntity, hs, hc] at h
      subst h
      simp only [Option.some.injEq] at hs'
      subst hs'
      simpa using fadeAlpha_le s.tint.a
  · intro a
    have hstep : ∀ k : ℕ, fadeAlpha^[k + 1] a ≤ fadeAlpha^[k] a := by
      intro k
      rw [Function.iterate_succ_apply']
      exact fadeAlpha_le _
    have hanti : Antitone (fun k : ℕ => fadeAlpha^[k] a) :=
      antitone_nat_of_succ_le hstep
    intro n m hnm
    exact hanti hnm

/-- Claim C5 witness: the concrete alpha-1 entity's alpha does not increase
across its fade-out pass, and three decay steps from 255 stay below one. -/
theorem fade_alpha_nonincreasing_witness :
    sA0.tint.a ≤ sA.tint.a ∧ fadeAlpha^[3] 255 ≤ fadeAlpha^[1] 255 :=
  ⟨fade_alpha_nonincreasing.1 eA eA0 sA sA0 FadeOutEntity_eA rfl rfl,
   fade_alpha_nonincreasing.2 255 1 3 (by decide)⟩

/-- Claim C10: since alpha is an 8-bit channel, the destroy threshold test
holds exactly at alpha 0; the decayed byte is the truncation of 0.975·a,
which for a ≥ 1 is at most a - 1 (and strictly below a), so alpha strictly
decreases to exactly 0 in finitely many frames; and an entity whose alpha
byte is 0 is destroyed by the fade-out body. -/
theorem alpha_byte_decay :
    (∀ a : ℕ, ((a : ℚ) < 0.005 ↔ a = 0)) ∧
    (∀ a : ℕ, 1 ≤ a → (fadeAlpha a : ℤ) = ⌊(0.975 : ℚ) * a⌋ ∧ fadeAlpha a ≤ a - 1) ∧
    (∀ a : ℕ, 1 ≤ a → fadeAlpha a < a) ∧
    (∀ a : ℕ, ∃ n : ℕ, fadeAlpha^[n] a = 0) ∧
    (∀ (e : Entity) (s : SpriteComponent), e.sprite = some s → s.tint.a = 0 →
        FadeOutEntity e = none) := by
  refine ⟨belowThreshold_iff, ?_, fadeAlpha_lt, ?_, ?_⟩
  · intro a ha
    constructor
    · have hq : (0.975 : ℚ) * a = ((39 * a : ℕ) : ℚ) / ((40 : ℕ) : ℚ) := by
        push_cast
        ring_nf
      have h2 : (⌊(0.975 : ℚ) * a⌋).toNat = 39 * a / 40 := by
        rw [hq, Int.floor_toNat, Nat.floor_div_nat, Nat.floor_natCast]
      have h3 : 0 ≤ ⌊(0.975 : ℚ) * a⌋ := Int.floor_nonneg.mpr (by positivity)
      have h4 := fadeAlpha_eq a
      omega
    · rw [fadeAlpha_eq]
      omega
  · intro a
    induction a using Nat.strong_induction_on with
    | _ a ih =>
      rcases Nat.eq_zero_or_pos a with h0 | h1
      · exact ⟨0, by simp [h0]⟩
      · obtain ⟨n, hn⟩ := ih (fadeAlpha a) (fadeAlpha_lt a h1)
        exact ⟨n + 1, by rw [Function.iterate_succ_apply]; exact hn⟩
  · intro e s hs ha
    have hc : ((s.tint.a : ℚ) < 0.005) := (belowThreshold_iff s.tint.a).mpr ha
    simp [FadeOutEntity, hs, hc]

/-- Claim C10 witness: concrete instances — the threshold test at byte 3,
the decay of byte 40 truncating 39, strict decrease at 40, termination from
255, and destruction of the concrete alpha-0 entity. -/
theorem alpha_byte_decay_witness :
    ((3 : ℚ) < 0.005 ↔ 3 = 0) ∧
    ((fadeAlpha 40 : ℤ) = ⌊(0.975 : ℚ) * 40⌋ ∧ fadeAlpha 40 ≤ 39) ∧
    fadeAlpha 40 < 40 ∧
    (∃ n : ℕ, fadeAlpha^[n] 255 = 0) ∧
    FadeOutEntity eA0 = none := by
  refine ⟨?_, ?_, ?_, ?_, ?_⟩
  · have h := alpha_byte_decay.1 3
    simpa using h
  · have h := (alpha_byte_decay.2.1 40 (by decide))
    simpa using h
  · exact alpha_byte_decay.2.2.1 40 (by decide)
  · exact alpha_byte_decay.2.2.2.1 255
  · exact alpha_byte_decay.2.2.2.2 eA0 sA0 rfl rfl

/-- Claim C7: in every registry reachable from the empty store by spawn,
squish, fade-out and render steps, an entity carrying a Squish component also
carries Transform and Sprite components. -/
theorem squish_requires_transform_sprite :
    ∀ reg : Registry, Reachable reg → ∀ e : Entity, e ∈ reg →
      e.squish.isSome = true → e.transform.isSome = true ∧ e.sprite.isSome = true := by
  intro reg hreach
  induction hreach with
  | empty =>
      intro e he _
      simp at he
  | spawn tex pos ss f _ ih =>
      intro e he hsq
      rcases List.mem_append.mp he with hl | hr
      · exact ih e hl hsq
      · rcases List.mem_singleton.mp hr with rfl
        exact ⟨rfl, rfl⟩
  | squish dt _ ih =>
      intro e he hsq
      obtain ⟨e0, he0, rfl⟩ := List.mem_map.mp he
      obtain ⟨ht, hsp, hq⟩ := SquishEntity_components dt e0
      rw [hq] at hsq
      obtain ⟨ht0, hsp0⟩ := ih e0 he0 hsq
      refine ⟨by rw [ht]; exact ht0, ?_⟩
      rw [hsp]
      exact hsp0
  | fade _ ih =>
      intro e he hsq
      obtain ⟨e0, he0, hsome⟩ := List.mem_filterMap.mp he
      obtain ⟨ht, hq, hsp⟩ := FadeOutEntity_some e0 e hsome
      rw [hq] at hsq
      obtain ⟨ht0, hsp0⟩ := ih e0 he0 hsq
      exact ⟨by rw [ht]; exact ht0, by rw [hsp]; exact hsp0⟩
  | render _ ih =>
      exact ih

/-- Claim C7 witness: the registry obtained by one spawn from the empty store
is reachable, and its (squish-carrying) entity has Transform and Sprite. -/
theorem squish_requires_transform_sprite_witness :
    kirbE.transform.isSome = true ∧ kirbE.sprite.isSome = true :=
  squish_requires_transform_sprite (SpawnKirb [] 0 ⟨640, 360⟩ ⟨0.15, 0.15⟩ 10)
    (Reachable.spawn 0 ⟨640, 360⟩ ⟨0.15, 0.15⟩ 10 Reachable.empty)
    kirbE (by simp [SpawnKirb, kirbE, QuaternionIdentity, WHITE]) rfl
